import Mathlib

/-!
A shallow embedding of `generate_video.py` (the LANA prompt-preparation
script).  Pure string formatting becomes Lean string functions; the JSON
configuration is modelled by an inductive `Json` type; filesystem effects
(directory creation, file writes) become an explicit operation list executed
against an association-list filesystem state, with an oracle deciding which
operations raise an OS error.  The CLI entry point `main` is modelled as a
function from parsed arguments, a read-side filesystem and the write oracle
to an exit code, a final filesystem state and the printed diagnostics;
uncaught Python exceptions are the `Except.error` case.
-/

/-- JSON values as produced by `json.load` (numbers restricted to integers,
which is all this program ever manipulates). -/
inductive Json where
  | null : Json
  | bool : Bool → Json
  | num : Int → Json
  | str : String → Json
  | arr : List Json → Json
  | obj : List (String × Json) → Json
deriving Repr

/-- Python truthiness of a JSON value (`if not prompt:`). -/
def Json.falsy : Json → Bool
  | .null => true
  | .bool b => !b
  | .num n => n == 0
  | .str s => s.isEmpty
  | .arr xs => xs.isEmpty
  | .obj kvs => kvs.isEmpty

/-- Lookup in a JSON object association list (first binding wins). -/
def lookupJ : List (String × Json) → String → Option Json
  | [], _ => none
  | (k, v) :: rest, key => if k = key then some v else lookupJ rest key

/-- `dict.get(key, default)` on a JSON object. -/
def lookupJD (kvs : List (String × Json)) (key : String) (dflt : Json) : Json :=
  (lookupJ kvs key).getD dflt

/-- The fixed text of the prompt template before the interpolated scene
description (`generate_video_prompt`, the f-string up to
`\x7bscene_description\x7d`). -/
def prompt_head : String :=
  "Generate a cinematic visual motion video with the following specifications:\n\nScene Description:\n"

/-- The fixed text of the prompt template after the interpolated scene
description. -/
def prompt_tail : String :=
  "\n\nTechnical Requirements:\n- Resolution: 1920x1080 (Full HD)\n- Frame Rate: 30 fps\n- Duration: 30-60 seconds\n- Camera Movement: Smooth cinematic pans and slow zooms\n- Lighting: Natural golden hour lighting with soft shadows\n- Motion: Slow motion capture (120fps source for 30fps output)\n- Focus: Sharp foreground, slightly soft background for depth\n- Color Grading: Warm, inviting tones with golden highlights\n- Audio: Ambient sounds (crackling fire, gentle wind, distant nature)\n\nStyle:\n- Cinematographic approach\n- Documentary-style realism\n- Attention to cultural authenticity\n- Emphasis on details and textures\n"

/-- `VideoGenerator.generate_video_prompt`: deterministic interpolation of the
scene description into the fixed cinematic template. -/
def generate_video_prompt (scene_description : String) : String :=
  prompt_head ++ scene_description ++ prompt_tail

/-- One lowercase hexadecimal digit, as Python emits in `\uXXXX` escapes. -/
def hexDigit (n : Nat) : Char :=
  if n < 10 then Char.ofNat (48 + n) else Char.ofNat (87 + n)

/-- Four lowercase hexadecimal digits. -/
def hex4 (n : Nat) : String :=
  String.mk [hexDigit (n / 4096 % 16), hexDigit (n / 256 % 16), hexDigit (n / 16 % 16), hexDigit (n % 16)]

/-- How CPython json (with the default `ensure_ascii=True`) escapes one
character inside a string literal: the short escapes for quote, backslash and
the usual control characters, `\uXXXX` for every other character outside
0x20..0x7e, surrogate pairs above 0xffff. -/
def pyJsonEscapeChar (c : Char) : String :=
  if c = Char.ofNat 34 then "\\\""
  else if c = Char.ofNat 92 then "\\\\"
  else if c = Char.ofNat 10 then "\\n"
  else if c = Char.ofNat 9 then "\\t"
  else if c = Char.ofNat 13 then "\\r"
  else if c = Char.ofNat 8 then "\\b"
  else if c = Char.ofNat 12 then "\\f"
  else if 0x20 ≤ c.toNat ∧ c.toNat ≤ 0x7e then String.singleton c
  else if c.toNat ≤ 0xffff then "\\u" ++ hex4 c.toNat
  else
    "\\u" ++ hex4 (0xd800 + (c.toNat - 0x10000) / 0x400) ++
      "\\u" ++ hex4 (0xdc00 + (c.toNat - 0x10000) % 0x400)

/-- A Python json string literal: quoted, characters escaped. -/
def pyJsonQuote (s : String) : String :=
  "\"" ++ String.join (s.data.map pyJsonEscapeChar) ++ "\""

/-- `ind * level` spaces of indentation. -/
def jsonPad (ind level : Nat) : String :=
  String.mk (List.replicate (ind * level) (Char.ofNat 32))

mutual

/-- `json.dump(..., indent=ind)` at nesting depth `level`: containers spread
one element per line, key separator ": ", item separator ",". -/
def Json.dumpAux (ind level : Nat) : Json → String
  | .null => "null"
  | .bool true => "true"
  | .bool false => "false"
  | .num n => toString n
  | .str s => pyJsonQuote s
  | .arr xs =>
      if xs.isEmpty then "[]"
      else "[\n" ++ dumpItems ind (level + 1) xs ++ "\n" ++ jsonPad ind level ++ "]"
  | .obj kvs =>
      if kvs.isEmpty then "\x7b\x7d"
      else "\x7b\n" ++ dumpFields ind (level + 1) kvs ++ "\n" ++ jsonPad ind level ++ "\x7d"

/-- Array elements, one per line at the given depth. -/
def dumpItems (ind level : Nat) : List Json → String
  | [] => ""
  | [x] => jsonPad ind level ++ Json.dumpAux ind level x
  | x :: rest =>
      jsonPad ind level ++ Json.dumpAux ind level x ++ ",\n" ++ dumpItems ind level rest

/-- Object members, one per line at the given depth. -/
def dumpFields (ind level : Nat) : List (String × Json) → String
  | [] => ""
  | [(k, v)] => jsonPad ind level ++ pyJsonQuote k ++ ": " ++ Json.dumpAux ind level v
  | (k, v) :: rest =>
      jsonPad ind level ++ pyJsonQuote k ++ ": " ++ Json.dumpAux ind level v ++ ",\n" ++
        dumpFields ind level rest

end

/-- `json.dump(j, indent=ind, fp=f)`: serialize at depth 0 (no trailing
newline). -/
def Json.dump (ind : Nat) (j : Json) : String :=
  Json.dumpAux ind 0 j

/-- A filesystem state: the set of directories created and an association
list from file path to current content. -/
structure FSState where
  dirs : List String
  files : List (String × String)
deriving Repr, DecidableEq

/-- Overwrite-or-create a binding in an association list. -/
def setKey : List (String × String) → String → String → List (String × String)
  | [], k, v => [(k, v)]
  | (k1, v1) :: rest, k, v =>
      if k1 = k then (k, v) :: rest else (k1, v1) :: setKey rest k v

/-- Lookup a binding in an association list. -/
def lookupKey : List (String × String) → String → Option String
  | [], _ => none
  | (k1, v1) :: rest, k => if k1 = k then some v1 else lookupKey rest k

/-- The two filesystem effects `generate_video` performs:
`Path(p).mkdir(parents=True, exist_ok=True)` and `open(p, "w")` + `write`. -/
inductive Op where
  | mkdir : String → Op
  | write : String → String → Op
deriving Repr, DecidableEq

/-- Effect of a successful operation on the filesystem state.  `mkdir` with
`exist_ok=True` is idempotent; a write replaces the whole file content. -/
def applyOp (st : FSState) : Op → FSState
  | .mkdir p => { st with dirs := if p ∈ st.dirs then st.dirs else st.dirs ++ [p] }
  | .write p c => { st with files := setKey st.files p c }

/-- Run operations in program order.  The oracle says which operation raises
an `OSError` (with which message); the first failing operation aborts the
sequence, leaving exactly the earlier effects applied — the Python code has
no try/except around these statements. -/
def runOps (oracle : Op → Option String) :
    List Op → FSState → Except (String × FSState) FSState
  | [], st => .ok st
  | op :: rest, st =>
      match oracle op with
      | some msg => .error (msg, st)
      | none => runOps oracle rest (applyOp st op)

/-- `Path(d) / name` for the non-empty relative directories this program
passes: POSIX join. -/
def pjoin (d name : String) : String := d ++ "/" ++ name

/-- The fixed `technical_specs` sub-object of the metadata record. -/
def technical_specs : List (String × Json) :=
  [("resolution", .str "1920x1080"),
   ("fps", .num 30),
   ("duration_seconds", .str "30-60"),
   ("format", .str "MP4"),
   ("codec", .str "H.264")]

/-- The fixed `notes` list of the metadata record. -/
def metadata_notes : List Json :=
  [.str "This system prepares video generation prompts for AI video generation services",
   .str "To generate the actual video, use services like:",
   .str "  - OpenAI\x27s Sora (when available)",
   .str "  - Runway Gen-2",
   .str "  - Stability AI\x27s Stable Video Diffusion",
   .str "  - Pika Labs",
   .str "  - Other AI video generation platforms"]

/-- The metadata record assembled by `generate_video` (insertion order
preserved, as Python dicts do). -/
def metadata (prompt output_path : String) : Json :=
  .obj [("original_prompt", .str prompt),
        ("optimized_prompt", .str (generate_video_prompt prompt)),
        ("output_path", .str output_path),
        ("status", .str "ready_for_generation"),
        ("technical_specs", .obj technical_specs),
        ("notes", .arr metadata_notes)]

/-- The fixed content of the `README.md` written by `generate_video`. -/
def readme_content : String :=
  "# Video Generation Output\n\n## Files Generated\n\n- `generation_prompt.txt`: Optimized prompt for video generation services\n- `metadata.json`: Technical specifications and metadata\n- `README.md`: This file\n\n## Next Steps\n\nTo generate the actual video, you can use the prompt in `generation_prompt.txt` with:\n\n### Option 1: OpenAI Sora (when available)\n```bash\n# Use OpenAI\x27s video generation API\n# API coming soon\n```\n\n### Option 2: Runway Gen-2\n1. Visit https://runwayml.com/\n2. Sign up for an account\n3. Use the \"Gen-2\" video generation tool\n4. Paste the prompt from `generation_prompt.txt`\n5. Adjust duration and settings as needed\n6. Generate and download your video\n\n### Option 3: Stable Video Diffusion\n```bash\n# Install Stable Video Diffusion\npip install diffusers transformers accelerate\n\n# Use the prompt to generate video frames\n# Then compile into video format\n```\n\n### Option 4: Pika Labs\n1. Visit https://pika.art/\n2. Create an account\n3. Paste the prompt\n4. Generate your cinematic video\n\n## Technical Specifications\n\nSee `metadata.json` for complete technical specifications including:\n- Resolution: 1920x1080\n- Frame Rate: 30 fps\n- Recommended Duration: 30-60 seconds\n- Format: MP4 with H.264 codec\n\n## Tips for Best Results\n\n1. Use the prompt as a starting point and adjust based on the platform\n2. Consider breaking long prompts into segments for some platforms\n3. Adjust technical parameters based on platform capabilities\n4. Review and iterate on the output\n"

/-- The filesystem operations `VideoGenerator.generate_video` performs, in
program order: create the output directory, then write the prompt file, the
metadata file and the README. -/
def generate_video_ops (prompt output_path : String) : List Op :=
  [.mkdir output_path,
   .write (pjoin output_path "generation_prompt.txt") (generate_video_prompt prompt),
   .write (pjoin output_path "metadata.json") (Json.dump 2 (metadata prompt output_path)),
   .write (pjoin output_path "README.md") readme_content]

/-- `VideoGenerator.generate_video`: run the file operations and return the
metadata record; any `OSError` propagates (the method has no handler). -/
def generate_video (oracle : Op → Option String) (prompt output_path : String)
    (st : FSState) : Except (String × FSState) (Json × FSState) :=
  match runOps oracle (generate_video_ops prompt output_path) st with
  | .error e => .error e
  | .ok st1 => .ok (metadata prompt output_path, st1)

/-- The oracle under which every filesystem operation succeeds. -/
def noFail : Op → Option String := fun _ => none

/-- Outcome of `open(config_path)` followed by `json.load` on that handle:
the file may be absent (`FileNotFoundError`), unreadable for another reason
(any other `OSError`, which `_load_config` does not catch), present but not
valid JSON (`json.JSONDecodeError` carrying a message), or parse to a value. -/
inductive ReadResult where
  | notFound : ReadResult
  | invalidJson : String → ReadResult
  | ioError : String → ReadResult
  | ok : Json → ReadResult

/-- `VideoGenerator._load_config`: returns the parsed mapping, or an empty
mapping plus a diagnostic for the two caught exception classes; any other
exception escapes (`Except.error`). -/
def load_config (rfs : String → ReadResult) (config_path : String) :
    Except String (Json × List String) :=
  match rfs config_path with
  | .notFound =>
      .ok (.obj [], ["Warning: Configuration file not found at " ++ config_path])
  | .invalidJson e =>
      .ok (.obj [], ["Error: Invalid JSON in configuration file: " ++ e])
  | .ioError m => .error m
  | .ok j => .ok (j, [])

/-- Python truthiness of an optional string argument (`argparse` yields
`None` when a flag is absent; `if not args.config` is also true for `""`). -/
def pyTruthy : Option String → Bool
  | none => false
  | some s => !s.isEmpty

/-- A simple single-quoted rendering of a string for Python `repr`. -/
def pyReprStr (s : String) : String :=
  "\x27" ++ String.join (s.data.map (fun c =>
    if c = Char.ofNat 92 then "\\\\"
    else if c = Char.ofNat 39 then "\\\x27"
    else if c = Char.ofNat 10 then "\\n"
    else if c = Char.ofNat 13 then "\\r"
    else if c = Char.ofNat 9 then "\\t"
    else String.singleton c)) ++ "\x27"

mutual

/-- Python `str()` of a `json.load` value, as the f-string interpolation in
`generate_video_prompt` would render the scene description.  On the
contractual case — `scene_description` a string — it is the identity;
containers fall back to `repr` (modelled approximately, no claim exercises
a non-string scene description). -/
def Json.pyStr : Json → String
  | .str s => s
  | j => Json.pyRepr j

/-- Python `repr` of a `json.load` value. -/
def Json.pyRepr : Json → String
  | .null => "None"
  | .bool true => "True"
  | .bool false => "False"
  | .num n => toString n
  | .str s => pyReprStr s
  | .arr xs => "[" ++ String.intercalate ", " (Json.pyReprList xs) ++ "]"
  | .obj kvs => "\x7b" ++ String.intercalate ", " (Json.pyReprFields kvs) ++ "\x7d"

/-- `repr` of the elements of a list. -/
def Json.pyReprList : List Json → List String
  | [] => []
  | x :: rest => Json.pyRepr x :: Json.pyReprList rest

/-- `repr` of the members of a dict. -/
def Json.pyReprFields : List (String × Json) → List String
  | [] => []
  | (k, v) :: rest => (pyReprStr k ++ ": " ++ Json.pyRepr v) :: Json.pyReprFields rest

end

/-- The parsed command-line arguments: `--config` and `--prompt` are
optional strings, `--output` defaults to "output" when absent. -/
structure Args where
  config : Option String
  prompt : Option String
  output : String

/-- Observable outcome of a normally-terminating process: exit code, final
filesystem state and the diagnostics printed along the way. -/
structure MainOut where
  exitCode : Nat
  fs : FSState
  logs : List String
deriving Repr, DecidableEq

/-- The message `parser.error` prints before exiting with status 2. -/
def usage_error_msg : String :=
  "error: Either --config or --prompt must be provided"

/-- The message printed before `sys.exit(1)` when the configuration lacks a
usable scene description. -/
def no_scene_msg : String :=
  "Error: No \x27scene_description\x27 found in config file"

/-- The `try`/`except` around `generator.generate_video`: success exits 0;
a raised exception is printed as `\nError: ...` and the process exits 1. -/
def runGeneration (oracle : Op → Option String) (prompt output : String)
    (st : FSState) (logs : List String) : Except String MainOut :=
  match generate_video oracle prompt output st with
  | .ok (_, st1) => .ok ⟨0, st1, logs⟩
  | .error (msg, st1) => .ok ⟨1, st1, logs ++ ["\nError: " ++ msg]⟩

/-- `main`: validate that at least one of `--config`/`--prompt` is truthy
(else `parser.error`, exit 2), construct the generator (loading the
configuration when the config argument is truthy), pick the scene
description from the configuration (exiting 1 when it is falsy) or from
`--prompt`, and run the generation under the `try`/`except`.  Exceptions
outside that `try` — an uncaught read error in `_load_config`, or
`config.get` on a non-dict JSON document — escape as `Except.error`. -/
def Cli.main (rfs : String → ReadResult) (oracle : Op → Option String)
    (args : Args) (st : FSState) : Except String MainOut :=
  if !pyTruthy args.config && !pyTruthy args.prompt then
    .ok ⟨2, st, [usage_error_msg]⟩
  else
    match (if pyTruthy args.config then load_config rfs (args.config.getD "")
           else .ok (.obj [], [])) with
    | .error m => .error m
    | .ok (config, logs) =>
        if pyTruthy args.config then
          match config with
          | .obj kvs =>
              let scene := lookupJD kvs "scene_description" (.str "")
              if scene.falsy then
                .ok ⟨1, st, logs ++ [no_scene_msg]⟩
              else
                runGeneration oracle scene.pyStr args.output st logs
          | _ => .error "AttributeError: \x27get\x27"
        else
          runGeneration oracle (args.prompt.getD "") args.output st logs

/-- The cumulative effect of a list of successful operations. -/
def applyOps (ops : List Op) (st : FSState) : FSState :=
  ops.foldl applyOp st

/-- Extract the README content of a run: the `README.md` file in the final state
of a successful `generate_video` run. -/
def readmeOutput (prompt output_path : String) (st : FSState) : Option String :=
  match generate_video noFail prompt output_path st with
  | .ok (_, st1) => lookupKey st1.files (pjoin output_path "README.md")
  | .error _ => none

theorem lookupKey_setKey_self (l : List (String × String)) (k v : String) :
    lookupKey (setKey l k v) k = some v := by
  induction l with
  | nil => simp [setKey, lookupKey]
  | cons hd tl ih =>
      obtain ⟨k1, v1⟩ := hd
      by_cases h : k1 = k
      · simp [setKey, h, lookupKey]
      · simp [setKey, h, lookupKey, ih]

theorem lookupKey_setKey_ne (l : List (String × String)) (k v k2 : String)
    (h : k2 ≠ k) :
    lookupKey (setKey l k v) k2 = lookupKey l k2 := by
  induction l with
  | nil => simp [setKey, lookupKey, Ne.symm h]
  | cons hd tl ih =>
      obtain ⟨k1, v1⟩ := hd
      by_cases h1 : k1 = k
      · subst h1
        simp [setKey, lookupKey, Ne.symm h]
      · simp [setKey, h1, lookupKey, ih]

theorem pjoin_length (d name : String) :
    (pjoin d name).length = d.length + 1 + name.length := by
  have h1 : ("/" : String).length = 1 := rfl
  simp [pjoin, String.length_append, h1]

theorem pjoin_ne (d a b : String) (h : a.length ≠ b.length) :
    pjoin d a ≠ pjoin d b := by
  intro he
  have hl := congrArg String.length he
  rw [pjoin_length, pjoin_length] at hl
  omega

theorem pyTruthy_of_ne (c : String) (hc : c ≠ "") : pyTruthy (some c) = true := by
  cases hemp : c.isEmpty with
  | true => exact absurd ((String.isEmpty_iff c).mp hemp) hc
  | false => simp [pyTruthy, hemp]

theorem runOps_noFail (ops : List Op) (st : FSState) :
    runOps noFail ops st = .ok (applyOps ops st) := by
  induction ops generalizing st with
  | nil => simp [runOps, applyOps]
  | cons op rest ih => simp [runOps, noFail, applyOps, List.foldl_cons, ih]

theorem generate_video_noFail (p out : String) (st : FSState) :
    generate_video noFail p out st =
      .ok (metadata p out, applyOps (generate_video_ops p out) st) := by
  simp [generate_video, runOps_noFail]

theorem gv_files (p out : String) (st : FSState) :
    (applyOps (generate_video_ops p out) st).files =
      setKey (setKey (setKey st.files
          (pjoin out "generation_prompt.txt") (generate_video_prompt p))
          (pjoin out "metadata.json") (Json.dump 2 (metadata p out)))
          (pjoin out "README.md") readme_content := by
  simp [applyOps, generate_video_ops, applyOp, List.foldl_cons]

theorem gv_lookup_prompt_file (p out : String) (st : FSState) :
    lookupKey (applyOps (generate_video_ops p out) st).files
      (pjoin out "generation_prompt.txt") = some (generate_video_prompt p) := by
  rw [gv_files,
    lookupKey_setKey_ne _ _ _ _ (pjoin_ne out _ _ (by decide)),
    lookupKey_setKey_ne _ _ _ _ (pjoin_ne out _ _ (by decide)),
    lookupKey_setKey_self]

theorem gv_lookup_metadata_file (p out : String) (st : FSState) :
    lookupKey (applyOps (generate_video_ops p out) st).files
      (pjoin out "metadata.json") = some (Json.dump 2 (metadata p out)) := by
  rw [gv_files,
    lookupKey_setKey_ne _ _ _ _ (pjoin_ne out _ _ (by decide)),
    lookupKey_setKey_self]

theorem gv_lookup_readme_file (p out : String) (st : FSState) :
    lookupKey (applyOps (generate_video_ops p out) st).files
      (pjoin out "README.md") = some readme_content := by
  rw [gv_files, lookupKey_setKey_self]

/-- C2: `generate_video` is idempotent on file contents: two consecutive
runs with the same scene description and output path succeed, return the
same metadata record, and leave the three output files with identical
content both times — content that is a pure function of the inputs (no
randomness, no timestamps). -/
theorem generate_video_idempotent (p out : String) (st : FSState) :
    ∃ st1 st2,
      generate_video noFail p out st = .ok (metadata p out, st1) ∧
      generate_video noFail p out st1 = .ok (metadata p out, st2) ∧
      lookupKey st1.files (pjoin out "generation_prompt.txt") =
        some (generate_video_prompt p) ∧
      lookupKey st2.files (pjoin out "generation_prompt.txt") =
        some (generate_video_prompt p) ∧
      lookupKey st1.files (pjoin out "metadata.json") =
        some (Json.dump 2 (metadata p out)) ∧
      lookupKey st2.files (pjoin out "metadata.json") =
        some (Json.dump 2 (metadata p out)) ∧
      lookupKey st1.files (pjoin out "README.md") = some readme_content ∧
      lookupKey st2.files (pjoin out "README.md") = some readme_content :=
  ⟨applyOps (generate_video_ops p out) st,
   applyOps (generate_video_ops p out) (applyOps (generate_video_ops p out) st),
   generate_video_noFail p out st, generate_video_noFail p out _,
   gv_lookup_prompt_file p out st, gv_lookup_prompt_file p out _,
   gv_lookup_metadata_file p out st, gv_lookup_metadata_file p out _,
   gv_lookup_readme_file p out st, gv_lookup_readme_file p out _⟩

/-- C5: the metadata record written to `metadata.json` is the 2-space
indented serialization of a JSON object whose `original_prompt` is exactly
the input scene description, whose `optimized_prompt` is
`generate_video_prompt` of it, whose `status` is
`"ready_for_generation"`, and whose `technical_specs` has resolution
`"1920x1080"` and fps `30`. -/
theorem metadata_file_correct (p out : String) (st : FSState) :
    ∃ kvs st1,
      metadata p out = .obj kvs ∧
      generate_video noFail p out st = .ok (.obj kvs, st1) ∧
      lookupKey st1.files (pjoin out "metadata.json") =
        some (Json.dump 2 (.obj kvs)) ∧
      lookupJ kvs "original_prompt" = some (.str p) ∧
      lookupJ kvs "optimized_prompt" = some (.str (generate_video_prompt p)) ∧
      lookupJ kvs "status" = some (.str "ready_for_generation") ∧
      lookupJ kvs "technical_specs" = some (.obj technical_specs) ∧
      lookupJ technical_specs "resolution" = some (.str "1920x1080") ∧
      lookupJ technical_specs "fps" = some (.num 30) :=
  ⟨_, applyOps (generate_video_ops p out) st, rfl,
   generate_video_noFail p out st,
   gv_lookup_metadata_file p out st,
   by simp [lookupJ], by simp [lookupJ], by simp [lookupJ], by simp [lookupJ],
   by simp [technical_specs, lookupJ], by simp [technical_specs, lookupJ]⟩

/-- C8: the `README.md` content is the same fixed text on every run, for
every pair of scene descriptions, output paths and starting filesystems —
it does not depend on any input. -/
theorem readme_fixed_content (p1 out1 : String) (stA : FSState)
    (p2 out2 : String) (stB : FSState) :
    readmeOutput p1 out1 stA = some readme_content ∧
    readmeOutput p1 out1 stA = readmeOutput p2 out2 stB := by
  have h : ∀ p out st, readmeOutput p out st = some readme_content := by
    intro p out st
    unfold readmeOutput
    rw [generate_video_noFail]
    exact gv_lookup_readme_file p out st
  exact ⟨h p1 out1 stA, (h p1 out1 stA).trans (h p2 out2 stB).symm⟩

/-- C1: for every non-empty scene description `s`, `generate_video_prompt s`
is non-empty and contains `s` as a contiguous substring. -/
theorem generate_video_prompt_contains (s : String) (h : s ≠ "") :
    generate_video_prompt s ≠ "" ∧ s.data <:+: (generate_video_prompt s).data := by
  constructor
  · intro hempty
    have hlen := congrArg String.length hempty
    simp [generate_video_prompt, String.length_append] at hlen
    exact absurd hlen.1.1 (by decide)
  · exact ⟨prompt_head.data, prompt_tail.data, by
      simp [generate_video_prompt, String.data_append]⟩

/-- Witness for C1 at the concrete scene description "a yurt at dusk". -/
theorem generate_video_prompt_contains_witness :
    ("a yurt at dusk" : String) ≠ "" ∧
      generate_video_prompt "a yurt at dusk" ≠ "" ∧
      ("a yurt at dusk" : String).data <:+: (generate_video_prompt "a yurt at dusk").data :=
  ⟨by decide, generate_video_prompt_contains "a yurt at dusk" (by decide)⟩

/-- C3: `_load_config` recovers both of its caught cases locally: a missing
file yields an empty mapping after a logged warning, invalid JSON yields an
empty mapping after a logged error; in neither case does an exception
escape to the caller (the result is `Except.ok`). -/
theorem load_config_recovers (rfs : String → ReadResult) (config_path e : String) :
    (rfs config_path = .notFound →
      load_config rfs config_path =
        .ok (.obj [], ["Warning: Configuration file not found at " ++ config_path])) ∧
    (rfs config_path = .invalidJson e →
      load_config rfs config_path =
        .ok (.obj [], ["Error: Invalid JSON in configuration file: " ++ e])) := by
  constructor <;> intro h <;> simp [load_config, h]

/-- Witness for C3 on a concrete missing file and a concrete malformed
file. -/
theorem load_config_recovers_witness :
    ((fun _ : String => ReadResult.notFound) "scenes/a.json" = .notFound ∧
      load_config (fun _ => ReadResult.notFound) "scenes/a.json" =
        .ok (.obj [], ["Warning: Configuration file not found at " ++ "scenes/a.json"])) ∧
    ((fun _ : String => ReadResult.invalidJson "Expecting value: line 1 column 1 (char 0)")
        "scenes/b.json" = .invalidJson "Expecting value: line 1 column 1 (char 0)" ∧
      load_config (fun _ => ReadResult.invalidJson "Expecting value: line 1 column 1 (char 0)")
          "scenes/b.json" =
        .ok (.obj [], ["Error: Invalid JSON in configuration file: " ++
          "Expecting value: line 1 column 1 (char 0)"])) :=
  ⟨⟨rfl, (load_config_recovers (fun _ => ReadResult.notFound) "scenes/a.json" "").1 rfl⟩,
   ⟨rfl, (load_config_recovers (fun _ => ReadResult.invalidJson "Expecting value: line 1 column 1 (char 0)")
      "scenes/b.json" "Expecting value: line 1 column 1 (char 0)").2 rfl⟩⟩

/-- Shared computation: with a truthy `--config` whose loaded mapping has a
falsy `scene_description`, `main` prints the error and exits 1 with the
filesystem untouched. -/
theorem main_config_falsy_scene_aux (rfs : String → ReadResult)
    (oracle : Op → Option String) (c : String) (p : Option String) (out : String)
    (st : FSState) (kvs : List (String × Json)) (lg : List String)
    (hc : c ≠ "")
    (hload : load_config rfs c = .ok (.obj kvs, lg))
    (hscene : (lookupJD kvs "scene_description" (.str "")).falsy = true) :
    Cli.main rfs oracle ⟨some c, p, out⟩ st = .ok ⟨1, st, lg ++ [no_scene_msg]⟩ := by
  have htr := pyTruthy_of_ne c hc
  unfold Cli.main
  simp [htr, hload, hscene]

/-- C4: when `--config` is given but the loaded configuration (including the
empty mapping left by a nonexistent file) has no non-empty
`scene_description`, the process prints an error and exits with status 1
before `generate_video` runs, leaving the filesystem exactly as it was —
zero output files and no output directory. -/
theorem main_config_without_scene (rfs : String → ReadResult)
    (oracle : Op → Option String) (c : String) (p : Option String) (out : String)
    (st : FSState) (kvs : List (String × Json)) (lg : List String)
    (hc : c ≠ "")
    (hload : load_config rfs c = .ok (.obj kvs, lg))
    (hscene : (lookupJD kvs "scene_description" (.str "")).falsy = true) :
    Cli.main rfs oracle ⟨some c, p, out⟩ st = .ok ⟨1, st, lg ++ [no_scene_msg]⟩ :=
  main_config_falsy_scene_aux rfs oracle c p out st kvs lg hc hload hscene

/-- Witness for C4: a nonexistent configuration file, so the mapping is
empty; exit status 1 and the starting filesystem is returned unchanged. -/
theorem main_config_without_scene_witness :
    (("missing.json" : String) ≠ "") ∧
    load_config (fun _ => ReadResult.notFound) "missing.json" =
      .ok (.obj [], ["Warning: Configuration file not found at " ++ "missing.json"]) ∧
    (lookupJD [] "scene_description" (.str "")).falsy = true ∧
    Cli.main (fun _ => ReadResult.notFound) noFail
        ⟨some "missing.json", none, "output"⟩ ⟨[], []⟩ =
      .ok ⟨1, ⟨[], []⟩,
        ["Warning: Configuration file not found at " ++ "missing.json"] ++ [no_scene_msg]⟩ :=
  ⟨by decide, rfl, by decide,
   main_config_without_scene (fun _ => ReadResult.notFound) noFail "missing.json" none
     "output" ⟨[], []⟩ [] ["Warning: Configuration file not found at " ++ "missing.json"]
     (by decide) rfl (by decide)⟩

/-- C6: with neither `--config` nor `--prompt`, `main` stops at the
usage-error check with exit status 2 (non-zero) and the filesystem exactly
as it was — no output directory or file is created. -/
theorem main_no_input_usage_error (rfs : String → ReadResult)
    (oracle : Op → Option String) (out : String) (st : FSState) :
    Cli.main rfs oracle ⟨none, none, out⟩ st = .ok ⟨2, st, [usage_error_msg]⟩ ∧
    (2 : Nat) ≠ 0 :=
  ⟨rfl, by decide⟩

/-- C9: `--prompt ""` with no `--config` behaves exactly like supplying
neither flag: the truthiness test fires the same usage error, the process
exits 2 and the filesystem is untouched. -/
theorem main_empty_prompt_usage_error (rfs : String → ReadResult)
    (oracle : Op → Option String) (out : String) (st : FSState) :
    Cli.main rfs oracle ⟨none, some "", out⟩ st = .ok ⟨2, st, [usage_error_msg]⟩ ∧
    Cli.main rfs oracle ⟨none, some "", out⟩ st =
      Cli.main rfs oracle ⟨none, none, out⟩ st :=
  ⟨rfl, rfl⟩

/-- C10: with both flags supplied and `--config` truthy, the configuration
decides the scene description and `--prompt` is ignored entirely: `main` is
the same function of every `--prompt` value; a configuration with a falsy
`scene_description` still exits 1 even when a non-empty `--prompt` was
given; and when the configuration carries a non-empty string
`scene_description`, that value — not the `--prompt` value — is the scene
description all three output files are generated from. -/
theorem main_config_precedence (rfs : String → ReadResult)
    (oracle : Op → Option String) (c out : String) (st : FSState)
    (p1 p2 : Option String)
    (hc : c ≠ "") :
    Cli.main rfs oracle ⟨some c, p1, out⟩ st =
      Cli.main rfs oracle ⟨some c, p2, out⟩ st ∧
    (∀ kvs lg, load_config rfs c = .ok (.obj kvs, lg) →
      (lookupJD kvs "scene_description" (.str "")).falsy = true →
      ∀ s, p1 = some s → s ≠ "" →
        Cli.main rfs oracle ⟨some c, p1, out⟩ st = .ok ⟨1, st, lg ++ [no_scene_msg]⟩) ∧
    (∀ kvs lg s, load_config rfs c = .ok (.obj kvs, lg) →
      lookupJ kvs "scene_description" = some (.str s) → s ≠ "" →
      ∃ st1,
        Cli.main rfs noFail ⟨some c, p1, out⟩ st = .ok ⟨0, st1, lg⟩ ∧
        lookupKey st1.files (pjoin out "generation_prompt.txt") =
          some (generate_video_prompt s) ∧
        lookupKey st1.files (pjoin out "metadata.json") =
          some (Json.dump 2 (metadata s out)) ∧
        lookupKey st1.files (pjoin out "README.md") = some readme_content) := by
  have htr := pyTruthy_of_ne c hc
  refine ⟨?_, ?_, ?_⟩
  · unfold Cli.main
    simp [htr]
  · intro kvs lg hload hscene s hp hs
    exact main_config_falsy_scene_aux rfs oracle c p1 out st kvs lg hc hload hscene
  · intro kvs lg s hload hlook hs
    have hse : s.isEmpty = false := by
      cases h : s.isEmpty with
      | true => exact absurd ((String.isEmpty_iff s).mp h) hs
      | false => rfl
    refine ⟨applyOps (generate_video_ops s out) st, ?_,
      gv_lookup_prompt_file s out st, gv_lookup_metadata_file s out st,
      gv_lookup_readme_file s out st⟩
    unfold Cli.main
    simp [htr, hload, lookupJD, hlook, Json.falsy, hse, Json.pyStr,
      runGeneration, generate_video_noFail]

/-- Witness for C10: first a configuration file that parses but lacks
`scene_description`, together with a non-empty `--prompt` — the two `main`
runs agree and exit 1; then a configuration whose `scene_description` is
the non-empty string "A red boat at dawn" — despite a different `--prompt`,
the run exits 0 and all three files are generated from the config value. -/
theorem main_config_precedence_witness :
    (("cfg.json" : String) ≠ "") ∧
    load_config (fun _ => ReadResult.ok (.obj [("title", .str "x")])) "cfg.json" =
      .ok (.obj [("title", .str "x")], []) ∧
    (lookupJD [("title", .str "x")] "scene_description" (.str "")).falsy = true ∧
    Cli.main (fun _ => ReadResult.ok (.obj [("title", .str "x")])) noFail
        ⟨some "cfg.json", some "a direct prompt", "output"⟩ ⟨[], []⟩ =
      Cli.main (fun _ => ReadResult.ok (.obj [("title", .str "x")])) noFail
        ⟨some "cfg.json", none, "output"⟩ ⟨[], []⟩ ∧
    Cli.main (fun _ => ReadResult.ok (.obj [("title", .str "x")])) noFail
        ⟨some "cfg.json", some "a direct prompt", "output"⟩ ⟨[], []⟩ =
      .ok ⟨1, ⟨[], []⟩, [] ++ [no_scene_msg]⟩ ∧
    load_config (fun _ => ReadResult.ok (.obj [("scene_description", .str "A red boat at dawn")]))
        "cfg.json" =
      .ok (.obj [("scene_description", .str "A red boat at dawn")], []) ∧
    lookupJ [("scene_description", .str "A red boat at dawn")] "scene_description" =
      some (.str "A red boat at dawn") ∧
    (("A red boat at dawn" : String) ≠ "") ∧
    ∃ st1,
      Cli.main (fun _ => ReadResult.ok (.obj [("scene_description", .str "A red boat at dawn")]))
          noFail ⟨some "cfg.json", some "a direct prompt", "output"⟩ ⟨[], []⟩ =
        .ok ⟨0, st1, []⟩ ∧
      lookupKey st1.files (pjoin "output" "generation_prompt.txt") =
        some (generate_video_prompt "A red boat at dawn") ∧
      lookupKey st1.files (pjoin "output" "metadata.json") =
        some (Json.dump 2 (metadata "A red boat at dawn" "output")) ∧
      lookupKey st1.files (pjoin "output" "README.md") = some readme_content :=
  ⟨by decide, rfl, by decide,
   (main_config_precedence (fun _ => ReadResult.ok (.obj [("title", .str "x")])) noFail
     "cfg.json" "output" ⟨[], []⟩ (some "a direct prompt") none (by decide)).1,
   (main_config_precedence (fun _ => ReadResult.ok (.obj [("title", .str "x")])) noFail
     "cfg.json" "output" ⟨[], []⟩ (some "a direct prompt") none (by decide)).2.1
     [("title", .str "x")] [] rfl (by decide) "a direct prompt" rfl (by decide),
   rfl, rfl, by decide,
   (main_config_precedence
     (fun _ => ReadResult.ok (.obj [("scene_description", .str "A red boat at dawn")])) noFail
     "cfg.json" "output" ⟨[], []⟩ (some "a direct prompt") none (by decide)).2.2
     [("scene_description", .str "A red boat at dawn")] [] "A red boat at dawn"
     rfl rfl (by decide)⟩

theorem runOps_error_split (oracle : Op → Option String) (ops : List Op)
    (st st1 : FSState) (msg : String)
    (h : runOps oracle ops st = .error (msg, st1)) :
    ∃ k op, ops[k]? = some op ∧ oracle op = some msg ∧
      st1 = applyOps (ops.take k) st := by
  induction ops generalizing st with
  | nil => simp [runOps] at h
  | cons op rest ih =>
      rw [runOps] at h
      cases hop : oracle op with
      | some m =>
          rw [hop] at h
          have hmsg : m = msg ∧ st = st1 := by
            cases h
            exact ⟨rfl, rfl⟩
          refine ⟨0, op, by simp, ?_, ?_⟩
          · rw [hop, hmsg.1]
          · simp [applyOps, hmsg.2]
      | none =>
          rw [hop] at h
          obtain ⟨k, op2, hget, horacle, hst⟩ := ih (applyOp st op) h
          exact ⟨k + 1, op2, by simpa using hget, horacle,
            by simpa [applyOps] using hst⟩

/-- C7: a filesystem error inside `generate_video` is not handled there: it
propagates to `main`, which prints the error message and exits 1; the files
written before the failing operation remain on disk unchanged — the final
state is exactly the starting state with the successful prefix of
operations applied, no cleanup. -/
theorem generate_video_error_propagates (rfs : String → ReadResult)
    (oracle : Op → Option String) (p out : String) (st st1 : FSState) (msg : String)
    (hp : p ≠ "")
    (hfail : runOps oracle (generate_video_ops p out) st = .error (msg, st1)) :
    generate_video oracle p out st = .error (msg, st1) ∧
    Cli.main rfs oracle ⟨none, some p, out⟩ st =
      .ok ⟨1, st1, ["\nError: " ++ msg]⟩ ∧
    ∃ k op, (generate_video_ops p out)[k]? = some op ∧ oracle op = some msg ∧
      st1 = applyOps ((generate_video_ops p out).take k) st := by
  have hpe : p.isEmpty = false := by
    cases h : p.isEmpty with
    | true => exact absurd ((String.isEmpty_iff p).mp h) hp
    | false => rfl
  have hgv : generate_video oracle p out st = .error (msg, st1) := by
    simp [generate_video, hfail]
  refine ⟨hgv, ?_, runOps_error_split oracle _ st st1 msg hfail⟩
  unfold Cli.main
  simp [pyTruthy, hpe, runGeneration, hgv]

/-- The concrete failure oracle for the C7 witness: writing
`output/metadata.json` raises `OSError` with a disk-full message; every
other operation succeeds. -/
def diskFullOracle : Op → Option String := fun op =>
  match op with
  | .write path _ =>
      if path = "output/metadata.json" then some "No space left on device" else none
  | _ => none

/-- The filesystem state the C7 witness run dies in: the directory exists
and the prompt file was written; the metadata write failed. -/
def diskFullState : FSState :=
  ⟨["output"], [(pjoin "output" "generation_prompt.txt", generate_video_prompt "night sky")]⟩

/-- Witness for C7: under `diskFullOracle` the metadata write fails; the
prompt file written before it survives, `main` exits 1 with the printed
message. -/
theorem generate_video_error_propagates_witness :
    (("night sky" : String) ≠ "") ∧
    runOps diskFullOracle (generate_video_ops "night sky" "output") ⟨[], []⟩ =
      .error ("No space left on device", diskFullState) ∧
    (generate_video diskFullOracle "night sky" "output" ⟨[], []⟩ =
      .error ("No space left on device", diskFullState) ∧
    Cli.main (fun _ => ReadResult.notFound) diskFullOracle
        ⟨none, some "night sky", "output"⟩ ⟨[], []⟩ =
      .ok ⟨1, diskFullState, ["\nError: " ++ "No space left on device"]⟩ ∧
    ∃ k op, (generate_video_ops "night sky" "output")[k]? = some op ∧
      diskFullOracle op = some "No space left on device" ∧
      diskFullState = applyOps ((generate_video_ops "night sky" "output").take k) ⟨[], []⟩) :=
  ⟨by decide, rfl,
   generate_video_error_propagates (fun _ => ReadResult.notFound) diskFullOracle
     "night sky" "output" ⟨[], []⟩ diskFullState "No space left on device"
     (by decide) rfl⟩
